import Mathlib

/- Shallow embedding of `src/dvc/stage/run.py`: stage execution, the
run-cache short-circuit, shell command composition, SIGINT handling,
checkpoint monitoring, and outcome classification.  Pure functions of the
source become Lean functions; the subprocess/filesystem/signal effects are
made explicit as event traces and threaded state; exceptions become
`Except`.  Python truthiness is modelled explicitly where the source
relies on it (`assert cmd`, `os.getenv("SHELL") or "/bin/sh"`,
`if old_handler:`). -/

namespace Dvc

/-- Host platform, as distinguished by `os.name` in the source
(`"nt"` for Windows, anything else is treated as posix here). -/
inductive OsName
  | posix
  | nt
deriving DecidableEq

/-- SIGINT dispositions as Python sees them.  `sigDfl` is
`signal.SIG_DFL`, whose numeric value 0 makes it falsy in a Python truth
test; `sigIgn` is `signal.SIG_IGN` (value 1, truthy); `pyHandler n`
stands for a Python-level callable handler (always truthy). -/
inductive Handler
  | sigDfl
  | sigIgn
  | pyHandler (n : Nat)
deriving DecidableEq

/-- Python truthiness of a handler value: `SIG_DFL == 0` is falsy,
everything else that `signal.signal` can return here is truthy. -/
def Handler.truthy : Handler → Bool
  | Handler.sigDfl => false
  | _ => true

/-- `os.path.basename` restricted to what the source needs: the part of
the path after the last `/`. -/
def basename (p : String) : String :=
  String.mk ((p.data.reverse.takeWhile (fun c => c ≠ '/')).reverse)

/-- Python's `str.lower()` on the characters of a string. -/
def lowerString (s : String) : String :=
  String.mk (s.data.map Char.toLower)

/-- Result of command composition: either the raw command string handed
to the platform's default shell mechanism (`shell=True` on Windows), or
an explicit argument vector. -/
inductive ExecCmd
  | raw (cmd : String)
  | argv (v : List String)
deriving DecidableEq

/-- `_make_cmd(executable, cmd)` from run.py lines 24-29: with no
executable the command string is returned unchanged; otherwise the
argument vector is the executable, then shell-specific rc-suppressing
flags chosen by the lowercased basename, then `-c` and the command. -/
def make_cmd (executable : Option String) (cmd : String) : ExecCmd :=
  match executable with
  | none => ExecCmd.raw cmd
  | some e =>
    let name := lowerString (basename e)
    let opts := if name = "zsh" then ["--no-rcs"]
                else if name = "bash" then ["--noprofile", "--norc"]
                else []
    ExecCmd.argv (e :: opts ++ ["-c", cmd])

/-- `get_executable()` from run.py lines 80-81:
`(os.getenv("SHELL") or "/bin/sh") if os.name != "nt" else None`.
`shellVar` is the value of the `SHELL` environment variable (`none` when
unset); Python's `or` also replaces an empty string by `/bin/sh`. -/
def get_executable (osName : OsName) (shellVar : Option String) : Option String :=
  match osName with
  | OsName.nt => none
  | OsName.posix =>
    some (match shellVar with
          | some s => if s = "" then "/bin/sh" else s
          | none => "/bin/sh")

/-- The `cmd` field of a stage as Python sees it: a single string, a list
of strings, or absent (`None`). -/
inductive CmdField
  | absent
  | str (s : String)
  | list (l : List String)
deriving DecidableEq

/-- Python truthiness of the `cmd` field: `None`, `""` and `[]` are
falsy. -/
def pyTruthyCmd : CmdField → Bool
  | CmdField.absent => false
  | CmdField.str s => !(s == "")
  | CmdField.list l => !l.isEmpty

/-- Errors surfaced by the embedded runner.  `stageCmdFailed` is
`StageCmdFailedError(cmd, retcode)`, `checkpointKilled` is
`CheckpointKilledError(cmd, retcode)`, `assertionError` is the
`assert cmd` failure in `_enforce_cmd_list`, `popenError` stands for an
exception raised by `subprocess.Popen` itself, `cacheError` is any
non-`RunCacheNotFoundError` exception raised by `stage_cache.restore`. -/
inductive RunError
  | stageCmdFailed (cmd : String) (retcode : Int)
  | checkpointKilled (cmd : String) (retcode : Int)
  | assertionError
  | popenError
  | cacheError (e : String)
deriving DecidableEq

/-- `_enforce_cmd_list(cmd)` from run.py lines 48-50: `assert cmd`, then
a single string becomes a one-element list while a list is returned
as-is. -/
def enforce_cmd_list (c : CmdField) : Except RunError (List String) :=
  if pyTruthyCmd c then
    match c with
    | CmdField.list l => Except.ok l
    | CmdField.str s => Except.ok [s]
    | CmdField.absent => Except.ok []
  else
    Except.error RunError.assertionError

/-- The slice of a dvc stage the runner consumes. -/
structure Stage where
  cmd : CmdField
  addressing : String
  is_callback : Bool
deriving DecidableEq

/-- Observable effects of one run attempt, in the order they happen.
`restoreCalled` is the `stage_cache.restore` call, `spawned` a
`subprocess.Popen`, `sigInstalled`/`sigRestored` the two
`signal.signal(SIGINT, ...)` calls, `monitorStarted`/`monitorStopped`
the checkpoint-monitor thread start and join, `waited` the
`p.communicate()` wait, `procKilled` a `_kill` of the child. -/
inductive Event
  | restoreCalled
  | runningStageLogged
  | fishWarnChecked
  | displayed (cmd : String)
  | spawned (c : ExecCmd)
  | sigInstalled
  | sigRestored
  | monitorStarted
  | monitorStopped
  | waited
  | procKilled
deriving DecidableEq

/-- The terminal classification of a run attempt that reached the
outcome evaluation at run.py lines 106-110. -/
inductive Outcome
  | success
  | commandFailed (retcode : Int)
  | checkpointKilled (retcode : Int)
deriving DecidableEq

/-- run.py lines 106-110 exactly: `if retcode != 0:` first, and only
inside that branch `killed.is_set()` decides between
`CheckpointKilledError` and `StageCmdFailedError`; exit code 0 raises
nothing. -/
def evalOutcome (killed : Bool) (retcode : Int) : Outcome :=
  if retcode ≠ 0 then
    if killed then Outcome.checkpointKilled retcode
    else Outcome.commandFailed retcode
  else Outcome.success

/-- External behaviour of the child process for one `_run` call:
whether `Popen` itself raises, the exit code `communicate` observes, and
whether the checkpoint monitor set the `killed` event during the wait. -/
structure ProcEnv where
  popenFails : Bool
  exitCode : Int
  monitorKills : Bool
deriving DecidableEq

/-- Result of an embedded run: the event trace, the SIGINT disposition
after the `finally` block, and the Python control-flow result. -/
structure RunOut where
  events : List Event
  handler : Handler
  result : Except RunError Unit

/-- The SIGINT disposition after `_run`'s `finally` block
(run.py lines 102-104): `old_handler` is the previous disposition when
it was saved (main thread only), and `if old_handler:` skips the restore
when that previous disposition is falsy (`SIG_DFL`), leaving `SIG_IGN`
installed. -/
def restoredHandler (mainThread : Bool) (prior : Handler) : Handler :=
  if mainThread then
    if prior.truthy then prior else Handler.sigIgn
  else prior

/-- The restore event emitted by `_run`'s `finally` block, mirroring
`restoredHandler`. -/
def restoreEvents (mainThread : Bool) (prior : Handler) : List Event :=
  if mainThread then
    if prior.truthy then [Event.sigRestored] else []
  else []

/-- `_run(stage, executable, cmd, checkpoint_func, ...)` from run.py
lines 84-110 for one command.  `ckpt` is the truthiness of
`checkpoint_func`.  When `Popen` raises, nothing was installed
(`old_handler is None`) and the exception propagates.  Otherwise the
handler is swapped in the main thread, the monitor runs iff `ckpt`, the
wait completes with `pe.exitCode`, the `finally` restores per
`restoredHandler`, and lines 106-110 classify the outcome. -/
def runCmd (mainThread ckpt : Bool) (prior : Handler) (pe : ProcEnv)
    (executable : Option String) (cmd : String) : RunOut :=
  if pe.popenFails then
    ⟨[], prior, Except.error RunError.popenError⟩
  else
    ⟨Event.spawned (make_cmd executable cmd)
       :: (if mainThread then [Event.sigInstalled] else [])
       ++ (if ckpt then [Event.monitorStarted] else [])
       ++ (if ckpt && pe.monitorKills then [Event.procKilled] else [])
       ++ [Event.waited]
       ++ (if ckpt then [Event.monitorStopped] else [])
       ++ restoreEvents mainThread prior,
     restoredHandler mainThread prior,
     match evalOutcome (ckpt && pe.monitorKills) pe.exitCode with
     | Outcome.success => Except.ok ()
     | Outcome.commandFailed r => Except.error (RunError.stageCmdFailed cmd r)
     | Outcome.checkpointKilled r => Except.error (RunError.checkpointKilled cmd r)⟩

/-- The `for cmd in commands:` loop of `cmd_run` (run.py lines
126-131), non-dry path: display each command, run it, and let the first
raised error abort the loop.  `proc i` is the behaviour of the i-th
spawned process. -/
def cmdRunLoop (mainThread ckpt : Bool) (proc : Nat → ProcEnv)
    (executable : Option String) : List String → Nat → Handler → RunOut
  | [], _, h => ⟨[], h, Except.ok ()⟩
  | c :: rest, i, h =>
    let out := runCmd mainThread ckpt h (proc i) executable c
    match out.result with
    | Except.ok _ =>
      let out2 := cmdRunLoop mainThread ckpt proc executable rest (i + 1) out.handler
      ⟨(Event.displayed c :: out.events) ++ out2.events, out2.handler, out2.result⟩
    | Except.error e => ⟨Event.displayed c :: out.events, out.handler, Except.error e⟩

/-- Ambient system state for one `run_stage` call: the platform, the
`SHELL` variable, whether we run on the main thread, the SIGINT
disposition before the call, and the behaviour of each spawned
process. -/
structure SysEnv where
  osName : OsName
  shellVar : Option String
  mainThread : Bool
  priorHandler : Handler
  proc : Nat → ProcEnv

/-- `cmd_run(stage, dry, checkpoint_func)` from run.py lines 113-131:
log the "Running stage" line, enforce the command list (assertion), and
either display-only (dry) or check for fish and execute each command in
order. -/
def cmd_run (env : SysEnv) (stage : Stage) (dry ckpt : Bool) : RunOut :=
  match enforce_cmd_list stage.cmd with
  | Except.error e =>
    ⟨[Event.runningStageLogged], env.priorHandler, Except.error e⟩
  | Except.ok commands =>
    if dry then
      ⟨Event.runningStageLogged :: commands.map Event.displayed,
       env.priorHandler, Except.ok ()⟩
    else
      let out := cmdRunLoop env.mainThread ckpt env.proc
                   (get_executable env.osName env.shellVar) commands 0 env.priorHandler
      ⟨Event.runningStageLogged :: Event.fishWarnChecked :: out.events,
       out.handler, out.result⟩

/-- What `stage.repo.stage_cache.restore(stage, **kwargs)` does on this
call: return normally (hit), raise `RunCacheNotFoundError`, or raise any
other exception. -/
inductive RestoreOutcome
  | hit
  | notFound
  | failure (e : String)
deriving DecidableEq

/-- `run_stage(stage, dry, force, checkpoint_func, **kwargs)` from
run.py lines 134-145: unless dry, force or a checkpoint callback is
given, try the run cache first — returning on a hit, swallowing only
`RunCacheNotFoundError`, and propagating anything else; then run the
commands. -/
def run_stage (env : SysEnv) (restore : RestoreOutcome) (stage : Stage)
    (dry force ckpt : Bool) : RunOut :=
  if dry || force || ckpt then
    cmd_run env stage dry ckpt
  else
    match restore with
    | RestoreOutcome.hit =>
      ⟨[Event.restoreCalled], env.priorHandler, Except.ok ()⟩
    | RestoreOutcome.failure e =>
      ⟨[Event.restoreCalled], env.priorHandler, Except.error (RunError.cacheError e)⟩
    | RestoreOutcome.notFound =>
      let out := cmd_run env stage dry ckpt
      ⟨Event.restoreCalled :: out.events, out.handler, out.result⟩

/-- The argument vectors actually spawned, in order, extracted from an
event trace. -/
def spawnedOf (evs : List Event) : List ExecCmd :=
  evs.filterMap fun e =>
    match e with
    | Event.spawned c => some c
    | _ => none

/-- The command strings displayed, in order, extracted from an event
trace. -/
def displayedOf (evs : List Event) : List String :=
  evs.filterMap fun e =>
    match e with
    | Event.displayed c => some c
    | _ => none

/-- State shared between the foreground wait and the checkpoint monitor
thread: whether the marker file currently exists, and the `killed` flag;
`procKilled` records that `_kill(proc)` was invoked. -/
structure MonitorState where
  marker : Bool
  killed : Bool
  procKilled : Bool
deriving DecidableEq

/-- External input to one iteration of `_checkpoint_run`'s `while True`
loop: whether the child created the marker since the last tick, what
`_run_callback` would do if invoked, and whether `done.wait(1)` observes
the stop request at the end of the tick. -/
structure TickEnv where
  markerCreated : Bool
  cb : Except String Unit
  stopRequested : Bool

/-- Observable effects of monitor ticks: `callbackRan` is a completed
`_run_callback`, `errorLogged` the `logger.exception` call,
`procTerminated` the `_kill(proc)` call, `markerRemoved` the
`os.remove(signal_path)` in the `finally`. -/
inductive MonEvent
  | callbackRan
  | errorLogged
  | procTerminated
  | markerRemoved
deriving DecidableEq

/-- One iteration of `_checkpoint_run` (run.py lines 180-194): if the
marker file exists, attempt `_run_callback`; on any exception log it,
`_kill` the child and set `killed`; in all cases the `finally` removes
the marker.  The function is total: no exception escapes the tick. -/
def monitorTick (e : TickEnv) (s : MonitorState) : MonitorState × List MonEvent :=
  if s.marker || e.markerCreated then
    match e.cb with
    | Except.ok _ =>
      (⟨false, s.killed, s.procKilled⟩, [MonEvent.callbackRan, MonEvent.markerRemoved])
    | Except.error _ =>
      (⟨false, true, true⟩,
       [MonEvent.errorLogged, MonEvent.procTerminated, MonEvent.markerRemoved])
  else (s, [])

/-- The `while True` loop of `_checkpoint_run` over a finite observed
sequence of ticks: each tick is handled, and the loop returns exactly
when `done.wait(1)` reports the stop request. -/
def monitorRun : List TickEnv → MonitorState → MonitorState × List MonEvent
  | [], s => (s, [])
  | e :: rest, s =>
    let p := monitorTick e s
    if e.stopRequested then p
    else
      let q := monitorRun rest p.1
      (q.1, p.2 ++ q.2)

/-- A process environment in which every spawn succeeds with exit code
0 and no monitor kill. -/
def quietProc : Nat → ProcEnv := fun _ => ⟨false, 0, false⟩

/-- A process environment whose second spawned command exits 3; all
other commands exit 0. -/
def failProc : Nat → ProcEnv := fun j => ⟨false, if j = 1 then 3 else 0, false⟩

/-- A sample posix main-thread environment with a truthy prior SIGINT
handler and quiet processes. -/
def sampleEnv : SysEnv := ⟨OsName.posix, some "/bin/bash", true, Handler.pyHandler 1, quietProc⟩

/-- A sample environment identical to `sampleEnv` but whose second
command exits 3. -/
def failEnv : SysEnv := ⟨OsName.posix, some "/bin/bash", true, Handler.pyHandler 1, failProc⟩

/-- A two-command stage. -/
def sampleStage : Stage := ⟨CmdField.list ["echo A", "echo B"], "train", false⟩

/-- A three-command stage whose middle command will exit 3 under
`failEnv`. -/
def abortStage : Stage := ⟨CmdField.list ["echo A", "exit 3", "echo C"], "train", false⟩

/-- A stage whose `cmd` field is an empty list (Python-falsy). -/
def emptyStage : Stage := ⟨CmdField.list [], "empty", false⟩

theorem spawnedOf_append (a b : List Event) :
    spawnedOf (a ++ b) = spawnedOf a ++ spawnedOf b := by
  simp [spawnedOf]

theorem displayedOf_append (a b : List Event) :
    displayedOf (a ++ b) = displayedOf a ++ displayedOf b := by
  simp [displayedOf]

theorem spawnedOf_cons_displayed (c : String) (l : List Event) :
    spawnedOf (Event.displayed c :: l) = spawnedOf l := by
  simp [spawnedOf]

theorem displayedOf_cons_displayed (c : String) (l : List Event) :
    displayedOf (Event.displayed c :: l) = c :: displayedOf l := by
  simp [displayedOf]

theorem runCmd_result_ok (mt : Bool) (h : Handler) (pe : ProcEnv)
    (ex : Option String) (c : String)
    (hp : pe.popenFails = false) (he : pe.exitCode = 0) :
    (runCmd mt false h pe ex c).result = Except.ok () := by
  simp [runCmd, hp, evalOutcome, he]

theorem runCmd_result_fail (mt : Bool) (h : Handler) (pe : ProcEnv)
    (ex : Option String) (c : String)
    (hp : pe.popenFails = false) (he : pe.exitCode ≠ 0) :
    (runCmd mt false h pe ex c).result
      = Except.error (RunError.stageCmdFailed c pe.exitCode) := by
  simp [runCmd, hp, evalOutcome, he]

theorem runCmd_trace (mt ck : Bool) (h : Handler) (pe : ProcEnv)
    (ex : Option String) (c : String) (hp : pe.popenFails = false) :
    spawnedOf (runCmd mt ck h pe ex c).events = [make_cmd ex c] ∧
    displayedOf (runCmd mt ck h pe ex c).events = [] := by
  cases mt <;> cases ck <;> cases hmk : pe.monitorKills <;> cases hh : h.truthy <;>
    simp [runCmd, hp, hmk, hh, restoreEvents, spawnedOf, displayedOf]

theorem restore_not_runCmd (mt ck : Bool) (h : Handler) (pe : ProcEnv)
    (ex : Option String) (c : String) :
    Event.restoreCalled ∉ (runCmd mt ck h pe ex c).events := by
  by_cases hp : pe.popenFails
  · simp [runCmd, hp]
  · cases mt <;> cases ck <;> cases hmk : pe.monitorKills <;> cases hh : h.truthy <;>
      simp [runCmd, hp, hmk, hh, restoreEvents]

theorem restore_not_loop (mt ck : Bool) (proc : Nat → ProcEnv) (ex : Option String) :
    ∀ (cs : List String) (i : Nat) (h : Handler),
      Event.restoreCalled ∉ (cmdRunLoop mt ck proc ex cs i h).events := by
  intro cs
  induction cs with
  | nil => intro i h; simp [cmdRunLoop]
  | cons c rest ih =>
    intro i h
    have hrc := restore_not_runCmd mt ck h (proc i) ex c
    cases hres : (runCmd mt ck h (proc i) ex c).result with
    | ok u =>
      have hih := ih (i + 1) (runCmd mt ck h (proc i) ex c).handler
      simp only [cmdRunLoop, hres]
      simp [hrc, hih]
    | error e =>
      simp only [cmdRunLoop, hres]
      simp [hrc]

theorem restore_not_cmd_run (env : SysEnv) (stage : Stage) (dry ck : Bool) :
    Event.restoreCalled ∉ (cmd_run env stage dry ck).events := by
  unfold cmd_run
  cases henf : enforce_cmd_list stage.cmd with
  | error e => simp
  | ok cs =>
    cases dry with
    | true => simp [List.mem_map]
    | false =>
      have hnl := restore_not_loop env.mainThread ck env.proc
        (get_executable env.osName env.shellVar) cs 0 env.priorHandler
      simp [hnl]

theorem cmdRunLoop_all_ok (mt : Bool) (proc : Nat → ProcEnv) (ex : Option String) :
    ∀ (cs : List String) (i : Nat) (h : Handler),
      (∀ j, j < cs.length →
         (proc (i + j)).popenFails = false ∧ (proc (i + j)).exitCode = 0) →
      (cmdRunLoop mt false proc ex cs i h).result = Except.ok () ∧
      spawnedOf (cmdRunLoop mt false proc ex cs i h).events = cs.map (make_cmd ex) ∧
      displayedOf (cmdRunLoop mt false proc ex cs i h).events = cs := by
  intro cs
  induction cs with
  | nil => intro i h hall; exact ⟨rfl, rfl, rfl⟩
  | cons c rest ih =>
    intro i h hall
    have h0 := hall 0 (by simp)
    rw [Nat.add_zero] at h0
    have hres := runCmd_result_ok mt h (proc i) ex c h0.1 h0.2
    have htr := runCmd_trace mt false h (proc i) ex c h0.1
    have hih := ih (i + 1) (runCmd mt false h (proc i) ex c).handler
      (fun j hj => by
        have harith : i + (j + 1) = (i + 1) + j := by omega
        have := hall (j + 1) (by simpa using Nat.succ_lt_succ hj)
        rwa [harith] at this)
    simp only [cmdRunLoop, hres, List.cons_append]
    refine ⟨hih.1, ?_, ?_⟩
    · rw [spawnedOf_cons_displayed, spawnedOf_append, htr.1, hih.2.1]
      simp
    · rw [displayedOf_cons_displayed, displayedOf_append, htr.2, hih.2.2]
      simp

theorem cmdRunLoop_abort (mt : Bool) (proc : Nat → ProcEnv) (ex : Option String) :
    ∀ (pre : List String) (c : String) (post : List String) (i : Nat) (h : Handler),
      (∀ j, j < pre.length →
         (proc (i + j)).popenFails = false ∧ (proc (i + j)).exitCode = 0) →
      (proc (i + pre.length)).popenFails = false →
      (proc (i + pre.length)).exitCode ≠ 0 →
      spawnedOf (cmdRunLoop mt false proc ex (pre ++ c :: post) i h).events
        = (pre ++ [c]).map (make_cmd ex) ∧
      displayedOf (cmdRunLoop mt false proc ex (pre ++ c :: post) i h).events
        = pre ++ [c] ∧
      (cmdRunLoop mt false proc ex (pre ++ c :: post) i h).result
        = Except.error (RunError.stageCmdFailed c ((proc (i + pre.length)).exitCode)) := by
  intro pre
  induction pre with
  | nil =>
    intro c post i h hpre hp hc
    simp only [List.length_nil, Nat.add_zero] at hp hc
    have hres := runCmd_result_fail mt h (proc i) ex c hp hc
    have htr := runCmd_trace mt false h (proc i) ex c hp
    simp only [List.nil_append, List.length_nil, Nat.add_zero, cmdRunLoop, hres]
    refine ⟨?_, ?_, ?_⟩
    · simp [spawnedOf_cons_displayed, htr.1]
    · simp [displayedOf_cons_displayed, htr.2]
    · trivial
  | cons p pre ih =>
    intro c post i h hpre hp hc
    have h0 := hpre 0 (by simp)
    rw [Nat.add_zero] at h0
    have hres := runCmd_result_ok mt h (proc i) ex p h0.1 h0.2
    have htr := runCmd_trace mt false h (proc i) ex p h0.1
    have harith : ∀ j, i + (j + 1) = (i + 1) + j := by intro j; omega
    have hih := ih c post (i + 1) (runCmd mt false h (proc i) ex p).handler
      (fun j hj => by
        have := hpre (j + 1) (by simpa using Nat.succ_lt_succ hj)
        rwa [harith j] at this)
      (by have := hp; rwa [show i + (p :: pre).length = (i + 1) + pre.length by simp; omega] at this)
      (by have := hc; rwa [show i + (p :: pre).length = (i + 1) + pre.length by simp; omega] at this)
    have hidx : i + (p :: pre).length = (i + 1) + pre.length := by simp; omega
    simp only [List.cons_append, cmdRunLoop, hres, List.append_eq]
    refine ⟨?_, ?_, ?_⟩
    · rw [spawnedOf_cons_displayed, spawnedOf_append, htr.1, hih.1]
      simp
    · rw [displayedOf_cons_displayed, displayedOf_append, htr.2, hih.2.1]
      simp
    · rw [hidx]
      exact hih.2.2

/-- C1 counterexample: at the outcome evaluation of `_run` the code
tests `retcode != 0` before consulting `killed`, so a killed run whose
observed exit code is 0 yields `Success`, not `CheckpointKilled`,
contradicting the claim that a set `killed` flag always yields
`CheckpointKilled` and never `Success`. -/
theorem outcome_killed_zero_counterexample :
    evalOutcome true 0 = Outcome.success ∧
    evalOutcome true 0 ≠ Outcome.checkpointKilled 0 := by
  decide

/-- C1 (amended): at outcome evaluation, a non-zero exit code yields
`CheckpointKilled` when `killed` is set and `CommandFailed` otherwise;
a zero exit code yields `Success` even when `killed` is set; and when
`killed` is set the outcome is never plain `CommandFailed`. -/
theorem outcome_classification (killed : Bool) (retcode : Int) :
    (retcode ≠ 0 → killed = true →
       evalOutcome killed retcode = Outcome.checkpointKilled retcode) ∧
    (retcode ≠ 0 → killed = false →
       evalOutcome killed retcode = Outcome.commandFailed retcode) ∧
    (retcode = 0 → evalOutcome killed retcode = Outcome.success) ∧
    (∀ r, killed = true → evalOutcome killed retcode ≠ Outcome.commandFailed r) := by
  refine ⟨?_, ?_, ?_, ?_⟩
  · intro h hk; subst hk; simp [evalOutcome, h]
  · intro h hk; subst hk; simp [evalOutcome, h]
  · intro h; simp [evalOutcome, h]
  · intro r hk; subst hk
    by_cases h : retcode = 0 <;> simp [evalOutcome, h]

/-- C1 witness: the amended classification evaluated at concrete
inputs. -/
theorem outcome_classification_witness :
    evalOutcome true (-15) = Outcome.checkpointKilled (-15) ∧
    evalOutcome false 3 = Outcome.commandFailed 3 ∧
    evalOutcome false 0 = Outcome.success :=
  ⟨(outcome_classification true (-15)).1 (by decide) rfl,
   (outcome_classification false 3).2.1 (by decide) rfl,
   (outcome_classification false 0).2.2.1 rfl⟩

/-- C3: a monitor tick that observes the checkpoint marker always
removes it, whether the commit callback succeeds or raises. -/
theorem checkpoint_marker_cleared (e : TickEnv) (s : MonitorState)
    (hobs : (s.marker || e.markerCreated) = true) :
    (monitorTick e s).1.marker = false ∧
    MonEvent.markerRemoved ∈ (monitorTick e s).2 := by
  unfold monitorTick
  rw [hobs]
  cases e.cb <;> simp

/-- C3 witness: the marker is removed both on a successful callback and
on a raising callback, at concrete inputs. -/
theorem checkpoint_marker_cleared_witness :
    ((monitorTick ⟨true, Except.ok (), false⟩ ⟨false, false, false⟩).1.marker = false ∧
      MonEvent.markerRemoved ∈ (monitorTick ⟨true, Except.ok (), false⟩ ⟨false, false, false⟩).2) ∧
    ((monitorTick ⟨true, Except.error "boom", false⟩ ⟨false, false, false⟩).1.marker = false ∧
      MonEvent.markerRemoved ∈ (monitorTick ⟨true, Except.error "boom", false⟩ ⟨false, false, false⟩).2) :=
  ⟨checkpoint_marker_cleared _ _ (by decide),
   checkpoint_marker_cleared _ _ (by decide)⟩

/-- C4: when the commit callback raises on a tick that observed the
marker, the tick logs the failure, terminates the child, sets the
`killed` flag and removes the marker; the loop continues past any
non-stop tick and returns exactly at a stop tick.  `monitorTick` is a
total function into states, so no callback exception escapes the loop:
the `try/except` around `_run_callback` is its single catch boundary. -/
theorem monitor_error_protocol :
    (∀ e s err, (s.marker || e.markerCreated) = true → e.cb = Except.error err →
       monitorTick e s =
         (⟨false, true, true⟩,
          [MonEvent.errorLogged, MonEvent.procTerminated, MonEvent.markerRemoved])) ∧
    (∀ e rest s, e.stopRequested = false →
       monitorRun (e :: rest) s =
         ((monitorRun rest (monitorTick e s).1).1,
          (monitorTick e s).2 ++ (monitorRun rest (monitorTick e s).1).2)) ∧
    (∀ e rest s, e.stopRequested = true →
       monitorRun (e :: rest) s = monitorTick e s) := by
  refine ⟨?_, ?_, ?_⟩
  · intro e s err hobs hcb
    unfold monitorTick
    rw [hobs, hcb]
    simp
  · intro e rest s hstop
    simp [monitorRun, hstop]
  · intro e rest s hstop
    simp [monitorRun, hstop]

/-- C4 witness: the kill protocol on a raising callback, and the loop
returning at a stop tick, at concrete inputs. -/
theorem monitor_error_protocol_witness :
    monitorTick ⟨true, Except.error "boom", false⟩ ⟨false, false, false⟩ =
      (⟨false, true, true⟩,
       [MonEvent.errorLogged, MonEvent.procTerminated, MonEvent.markerRemoved]) ∧
    monitorRun [⟨false, Except.ok (), true⟩] ⟨false, false, false⟩ =
      monitorTick ⟨false, Except.ok (), true⟩ ⟨false, false, false⟩ :=
  ⟨monitor_error_protocol.1 _ _ "boom" (by decide) rfl,
   monitor_error_protocol.2.2 _ [] _ rfl⟩

/-- C6: `_run`'s `finally` guards the SIGINT restore with
`if old_handler:`, and `signal.SIG_DFL` has value 0, hence is falsy in
Python.  So on the main thread with a prior disposition of `SIG_DFL`
and a normally completing child, the restore is skipped and SIGINT is
left ignored — the previously installed handler is not restored on that
exit path.  Truthy prior handlers are restored, non-main contexts never
touch the disposition, and a `Popen` failure before installation leaves
it untouched. -/
theorem sigint_restore_skipped_on_sig_dfl :
    (runCmd true false Handler.sigDfl ⟨false, 0, false⟩ (some "/bin/sh") "echo ok").handler
        = Handler.sigIgn ∧
    Handler.sigIgn ≠ Handler.sigDfl ∧
    (runCmd true false Handler.sigDfl ⟨false, 0, false⟩ (some "/bin/sh") "echo ok").result
        = Except.ok () ∧
    (runCmd true false (Handler.pyHandler 7) ⟨false, 0, false⟩ (some "/bin/sh") "echo ok").handler
        = Handler.pyHandler 7 ∧
    (runCmd false false Handler.sigDfl ⟨false, 0, false⟩ (some "/bin/sh") "echo ok").handler
        = Handler.sigDfl ∧
    (runCmd true false Handler.sigDfl ⟨true, 0, false⟩ (some "/bin/sh") "echo ok").handler
        = Handler.sigDfl :=
  ⟨rfl, by decide, rfl, rfl, rfl, rfl⟩

/-- C8 counterexample: flag selection lowercases the basename, so an
executable whose basename is `ZSH` (not literally `zsh`, nor `bash`)
still receives `--no-rcs`, contradicting the claim's "no extra flags
otherwise" branch. -/
theorem make_cmd_uppercase_counterexample :
    basename "/bin/ZSH" ≠ "zsh" ∧
    basename "/bin/ZSH" ≠ "bash" ∧
    make_cmd (some "/bin/ZSH") "echo hi" ≠ ExecCmd.argv ["/bin/ZSH", "-c", "echo hi"] ∧
    make_cmd (some "/bin/ZSH") "echo hi"
        = ExecCmd.argv ["/bin/ZSH", "--no-rcs", "-c", "echo hi"] := by
  refine ⟨by decide, by decide, by decide, rfl⟩

/-- C8 (amended): on non-Windows the resolved executable is the `SHELL`
variable (`/bin/sh` when unset or empty) and the argument vector is the
executable, then `--no-rcs` when the lowercased basename is `zsh`, or
`--noprofile --norc` when it is `bash`, or no extra flags otherwise,
then `-c` and the command; on Windows no executable is resolved and the
command string is passed through unchanged. -/
theorem shell_composition (exe cmd : String) (shellVar : Option String) :
    (make_cmd none cmd = ExecCmd.raw cmd) ∧
    (lowerString (basename exe) = "zsh" →
       make_cmd (some exe) cmd = ExecCmd.argv [exe, "--no-rcs", "-c", cmd]) ∧
    (lowerString (basename exe) = "bash" →
       make_cmd (some exe) cmd = ExecCmd.argv [exe, "--noprofile", "--norc", "-c", cmd]) ∧
    (lowerString (basename exe) ≠ "zsh" → lowerString (basename exe) ≠ "bash" →
       make_cmd (some exe) cmd = ExecCmd.argv [exe, "-c", cmd]) ∧
    (get_executable OsName.nt shellVar = none) ∧
    (∀ s, shellVar = some s → s ≠ "" →
       get_executable OsName.posix shellVar = some s) ∧
    (shellVar = some "" → get_executable OsName.posix shellVar = some "/bin/sh") ∧
    (shellVar = none → get_executable OsName.posix shellVar = some "/bin/sh") := by
  refine ⟨rfl, ?_, ?_, ?_, rfl, ?_, ?_, ?_⟩
  · intro h; simp [make_cmd, h]
  · intro h; simp [make_cmd, h]
  · intro h1 h2; simp [make_cmd, h1, h2]
  · intro s hs hne; subst hs; simp [get_executable, hne]
  · intro hs; subst hs; simp [get_executable]
  · intro hs; subst hs; simp [get_executable]

/-- C8 witness: the composition evaluated at concrete inputs. -/
theorem shell_composition_witness :
    make_cmd (some "/bin/zsh") "echo hi"
        = ExecCmd.argv ["/bin/zsh", "--no-rcs", "-c", "echo hi"] ∧
    get_executable OsName.posix (some "/bin/zsh") = some "/bin/zsh" :=
  ⟨(shell_composition "/bin/zsh" "echo hi" (some "/bin/zsh")).2.1 (by decide),
   (shell_composition "/bin/zsh" "echo hi" (some "/bin/zsh")).2.2.2.2.2.1
     "/bin/zsh" rfl (by decide)⟩

/-- C10: `cmd_run` enforces a non-empty command: a single non-empty
string becomes a one-command list, while an empty string, an empty list
or an absent command fails the assertion, and `cmd_run`'s trace then
contains only the "Running stage" log line — nothing is displayed or
executed. -/
theorem enforce_cmd_spec (s : String) :
    (s ≠ "" → enforce_cmd_list (CmdField.str s) = Except.ok [s]) ∧
    (enforce_cmd_list (CmdField.str "") = Except.error RunError.assertionError) ∧
    (enforce_cmd_list (CmdField.list []) = Except.error RunError.assertionError) ∧
    (enforce_cmd_list CmdField.absent = Except.error RunError.assertionError) ∧
    (∀ env dry ckpt st, pyTruthyCmd st.cmd = false →
       cmd_run env st dry ckpt =
         ⟨[Event.runningStageLogged], env.priorHandler,
          Except.error RunError.assertionError⟩) := by
  refine ⟨?_, rfl, rfl, rfl, ?_⟩
  · intro h
    simp [enforce_cmd_list, pyTruthyCmd, h]
  · intro env dry ckpt st h
    simp [cmd_run, enforce_cmd_list, h]

/-- C10 witness: a concrete string command and a concrete empty-command
stage. -/
theorem enforce_cmd_spec_witness :
    enforce_cmd_list (CmdField.str "echo A") = Except.ok ["echo A"] ∧
    cmd_run sampleEnv emptyStage false false =
      ⟨[Event.runningStageLogged], sampleEnv.priorHandler,
       Except.error RunError.assertionError⟩ :=
  ⟨(enforce_cmd_spec "echo A").1 (by decide),
   (enforce_cmd_spec "echo A").2.2.2.2 sampleEnv false false emptyStage rfl⟩

/-- C2: `run_stage` consults the run cache's restore exactly when the
run is not dry, not forced and has no checkpoint callback; and on a
cache hit it returns at once with the stage satisfied — the whole trace
is the single restore call, so nothing is composed, spawned or
monitored. -/
theorem run_cache_consult_iff (env : SysEnv) (restore : RestoreOutcome) (stage : Stage)
    (dry force ckpt : Bool) :
    (Event.restoreCalled ∈ (run_stage env restore stage dry force ckpt).events ↔
       dry = false ∧ force = false ∧ ckpt = false) ∧
    (dry = false → force = false → ckpt = false → restore = RestoreOutcome.hit →
       run_stage env restore stage dry force ckpt =
         ⟨[Event.restoreCalled], env.priorHandler, Except.ok ()⟩) := by
  constructor
  · cases dry <;> cases force <;> cases ckpt <;> cases restore <;>
      simp [run_stage, restore_not_cmd_run]
  · intro h1 h2 h3 h4
    subst h1; subst h2; subst h3; subst h4
    rfl

/-- C2 witness: a cache hit on a plain run returns the hit trace. -/
theorem run_cache_consult_iff_witness :
    run_stage sampleEnv RestoreOutcome.hit sampleStage false false false =
      ⟨[Event.restoreCalled], sampleEnv.priorHandler, Except.ok ()⟩ :=
  (run_cache_consult_iff sampleEnv RestoreOutcome.hit sampleStage false false false).2
    rfl rfl rfl rfl

/-- C7: on the consulting path of `run_stage`, a
`RunCacheNotFoundError` from restore is swallowed and execution
proceeds into `cmd_run`, while any other restore error propagates to
the caller as-is, with nothing else having happened. -/
theorem run_cache_error_propagation (env : SysEnv) (stage : Stage) (e : String) :
    run_stage env (RestoreOutcome.failure e) stage false false false =
      ⟨[Event.restoreCalled], env.priorHandler, Except.error (RunError.cacheError e)⟩ ∧
    run_stage env RestoreOutcome.notFound stage false false false =
      ⟨Event.restoreCalled :: (cmd_run env stage false false).events,
       (cmd_run env stage false false).handler,
       (cmd_run env stage false false).result⟩ :=
  ⟨rfl, rfl⟩

/-- C9: a dry run only logs the stage and displays the command
strings — it never consults the run cache, never spawns a process,
never starts the checkpoint monitor, and completes successfully.  The
hypothesis is the data-model invariant that a stage carries one or more
command strings (a Python-falsy `cmd` would instead fail the
`_enforce_cmd_list` assertion, see the C10 theorem). -/
theorem dry_run_only_displays (env : SysEnv) (restore : RestoreOutcome) (stage : Stage)
    (force ckpt : Bool) (cs : List String)
    (hcmds : enforce_cmd_list stage.cmd = Except.ok cs) :
    run_stage env restore stage true force ckpt =
      ⟨Event.runningStageLogged :: cs.map Event.displayed,
       env.priorHandler, Except.ok ()⟩ ∧
    Event.restoreCalled ∉ (run_stage env restore stage true force ckpt).events ∧
    (∀ c, Event.spawned c ∉ (run_stage env restore stage true force ckpt).events) ∧
    Event.monitorStarted ∉ (run_stage env restore stage true force ckpt).events := by
  have h1 : run_stage env restore stage true force ckpt =
      ⟨Event.runningStageLogged :: cs.map Event.displayed,
       env.priorHandler, Except.ok ()⟩ := by
    simp [run_stage, cmd_run, hcmds]
  refine ⟨h1, ?_, ?_, ?_⟩
  · rw [h1]; simp [List.mem_map]
  · intro c; rw [h1]; simp [List.mem_map]
  · rw [h1]; simp [List.mem_map]

/-- C9 witness: a concrete dry run displays the two commands and
succeeds. -/
theorem dry_run_only_displays_witness :
    run_stage sampleEnv RestoreOutcome.notFound sampleStage true false false =
      ⟨Event.runningStageLogged :: (["echo A", "echo B"].map Event.displayed),
       sampleEnv.priorHandler, Except.ok ()⟩ :=
  (dry_run_only_displays sampleEnv RestoreOutcome.notFound sampleStage false false
     ["echo A", "echo B"] rfl).1

/-- C5: on a cache-miss execution, `cmd_run` runs the configured
commands strictly in declared order, one spawned child per command;
when a command exits non-zero, later commands are neither displayed nor
spawned and the raised `StageCmdFailedError` carries that command
string and its exact exit code; when all commands exit zero, every
command is spawned in order and the run succeeds. -/
theorem commands_in_order_abort (env : SysEnv) (stage : Stage)
    (pre : List String) (c : String) (post : List String)
    (hcmds : enforce_cmd_list stage.cmd = Except.ok (pre ++ c :: post))
    (hpre : ∀ j, j < pre.length →
       (env.proc j).popenFails = false ∧ (env.proc j).exitCode = 0)
    (hp : (env.proc pre.length).popenFails = false)
    (hc : (env.proc pre.length).exitCode ≠ 0) :
    spawnedOf (cmd_run env stage false false).events
      = (pre ++ [c]).map (make_cmd (get_executable env.osName env.shellVar)) ∧
    displayedOf (cmd_run env stage false false).events = pre ++ [c] ∧
    (cmd_run env stage false false).result
      = Except.error (RunError.stageCmdFailed c ((env.proc pre.length).exitCode)) ∧
    (∀ cs i h,
       (∀ j, j < cs.length →
          (env.proc (i + j)).popenFails = false ∧ (env.proc (i + j)).exitCode = 0) →
       (cmdRunLoop env.mainThread false env.proc
           (get_executable env.osName env.shellVar) cs i h).result = Except.ok () ∧
       spawnedOf (cmdRunLoop env.mainThread false env.proc
           (get_executable env.osName env.shellVar) cs i h).events
         = cs.map (make_cmd (get_executable env.osName env.shellVar))) := by
  have hloop := cmdRunLoop_abort env.mainThread env.proc
      (get_executable env.osName env.shellVar) pre c post 0 env.priorHandler
      (by intro j hj; simpa using hpre j hj)
      (by simpa using hp)
      (by simpa using hc)
  have hcr : cmd_run env stage false false =
      ⟨Event.runningStageLogged :: Event.fishWarnChecked ::
         (cmdRunLoop env.mainThread false env.proc
            (get_executable env.osName env.shellVar)
            (pre ++ c :: post) 0 env.priorHandler).events,
       (cmdRunLoop env.mainThread false env.proc
          (get_executable env.osName env.shellVar)
          (pre ++ c :: post) 0 env.priorHandler).handler,
       (cmdRunLoop env.mainThread false env.proc
          (get_executable env.osName env.shellVar)
          (pre ++ c :: post) 0 env.priorHandler).result⟩ := by
    simp [cmd_run, hcmds]
  rw [hcr]
  refine ⟨?_, ?_, ?_, ?_⟩
  · show spawnedOf (Event.runningStageLogged :: Event.fishWarnChecked :: _) = _
    rw [show ∀ l, spawnedOf (Event.runningStageLogged :: Event.fishWarnChecked :: l)
          = spawnedOf l from fun l => by simp [spawnedOf]]
    rw [hloop.1]
  · show displayedOf (Event.runningStageLogged :: Event.fishWarnChecked :: _) = _
    rw [show ∀ l, displayedOf (Event.runningStageLogged :: Event.fishWarnChecked :: l)
          = displayedOf l from fun l => by simp [displayedOf]]
    rw [hloop.2.1]
  · show (cmdRunLoop _ _ _ _ _ _ _).result = _
    rw [hloop.2.2]
    simp
  · intro cs i h hall
    have := cmdRunLoop_all_ok env.mainThread env.proc
      (get_executable env.osName env.shellVar) cs i h hall
    exact ⟨this.1, this.2.1⟩

/-- C5 witness: a three-command stage whose second command exits 3 under
`failEnv` displays and spawns exactly the first two commands and fails
with that command and exit code 3. -/
theorem commands_in_order_abort_witness :
    displayedOf (cmd_run failEnv abortStage false false).events
      = ["echo A"] ++ ["exit 3"] ∧
    (cmd_run failEnv abortStage false false).result
      = Except.error (RunError.stageCmdFailed "exit 3"
          ((failEnv.proc (List.length ["echo A"])).exitCode)) :=
  ⟨(commands_in_order_abort failEnv abortStage ["echo A"] "exit 3" ["echo C"] rfl
      (by intro j hj
          have hj0 : j = 0 := by simpa using hj
          subst hj0
          exact ⟨rfl, rfl⟩)
      rfl (by decide)).2.1,
   (commands_in_order_abort failEnv abortStage ["echo A"] "exit 3" ["echo C"] rfl
      (by intro j hj
          have hj0 : j = 0 := by simpa using hj
          subst hj0
          exact ⟨rfl, rfl⟩)
      rfl (by decide)).2.2.1⟩

end Dvc
